import Mathlib

/-!
Verification development for the proton-drive-sync repository.

The definitions below are a shallow embedding of the sync engine's state
store, job queue, change classifier, watcher scan-diff pass and the remote
drive operations, translated from the TypeScript sources:

  * `src/sync/engine.ts`      (handleFileChange)
  * `src/sync/watcher.ts`     (compareWithStoredChangeTokens, buildChangeToken)
  * `src/sync/nodes.ts`       (node-mapping CRUD; file `unnamed/part_003`)
  * `src/sync/hashes.ts`      (file-hash CRUD)
  * `src/sync/processor.ts`   (processJob; file `unnamed/part_004`)
  * `src/proton/utils.ts`     (parsePath, findNodeByName, traverseRemotePath,
                               uploadFile / createNode decision logic)
  * `src/proton/delete.ts`    (deleteNode)

The SQLite tables (drizzle) are modelled as association lists keyed by
`localPath`; SQL `INSERT .. ON CONFLICT DO UPDATE` becomes an upsert,
`DELETE .. WHERE localPath = p` a filter, `UPDATE .. WHERE localPath = p`
a map, and `LIKE 'dir/%'` a `String.startsWith` test.  Remote network
calls are modelled with an explicit effect log.  The job queue module
(`src/sync/queue.ts`) is not part of the sources; its operations are
modelled from the specification (sections 3, 4.1, 4.3, 4.4) and are marked
`Modelled from the spec:` in their doc comments.
-/

namespace ProtonDriveSync

/-! ## String primitives

The JS string operations are modelled on the character list underlying a
Lean `String` (JS indexes UTF-16 code units; on the ASCII paths and hex
digests this code handles, characters coincide). -/

/-- Model of `a.startsWith(b)`. -/
def strStartsWith (s pre : String) : Bool := pre.data.isPrefixOf s.data

/-- Model of `a.endsWith(b)`. -/
def strEndsWith (s suf : String) : Bool := suf.data.isSuffixOf s.data

/-- Model of `s.slice(n)`: drop the first `n` characters. -/
def strDrop (s : String) (n : Nat) : String := ⟨s.data.drop n⟩

/-- Model of `s.slice(0, -n)`: drop the last `n` characters. -/
def strDropRight (s : String) (n : Nat) : String := ⟨s.data.take (s.data.length - n)⟩

/-- Model of `s.toLowerCase()` on ASCII text. -/
def lowerStr (s : String) : String := ⟨s.data.map Char.toLower⟩

/-- Splitter used to model `path.basename` / `path.dirname` /
`String.prototype.split("/")`. -/
def splitSlashAux (acc : List Char) : List Char → List String
  | [] => [⟨acc.reverse⟩]
  | c :: rest =>
    if c = '/' then ⟨acc.reverse⟩ :: splitSlashAux [] rest
    else splitSlashAux (c :: acc) rest

/-- Split a string at every `'/'`. -/
def splitSlash (s : String) : List String := splitSlashAux [] s.data

/-! ## Association-list primitives (model of the SQLite tables) -/

/-- Model of `INSERT .. VALUES .. ON CONFLICT (key) DO UPDATE`: replace the
value at an existing key, otherwise append a fresh row. -/
def upsert (k : String) (v : α) : List (String × α) → List (String × α)
  | [] => [(k, v)]
  | (k', v') :: rest => if k' = k then (k, v) :: rest else (k', v') :: upsert k v rest

/-- Model of `DELETE .. WHERE key = k`. -/
def delKey (k : String) (l : List (String × α)) : List (String × α) :=
  l.filter (fun e => e.1 ≠ k)

/-- Model of `SELECT .. WHERE key = k` (`.get()` returns the first row). -/
def lookupKey (k : String) (l : List (String × α)) : Option α :=
  (l.find? (fun e => e.1 = k)).map (·.2)

/-! ## Data model (section 3 of the spec, `src/db/schema.ts` tables) -/

/-- `SyncEventType` from `src/db/schema.ts` (values used by the engine and
processor). -/
inductive SyncEventType where
  | create
  | update
  | delete
  | rename
  | move
  | deleteAndCreate
deriving DecidableEq, Repr

/-- Job states of a `sync_jobs` row. -/
inductive JobState where
  | pending
  | processing
  | synced
  | blocked
deriving DecidableEq, Repr

/-- A `sync_jobs` row. -/
structure Job where
  id : Nat
  eventType : SyncEventType
  localPath : String
  remotePath : String
  oldLocalPath : Option String := none
  oldRemotePath : Option String := none
  contentHash : Option String := none
  state : JobState := .pending
  nRetries : Nat := 0
  retryAt : Nat := 0
  lastError : Option String := none
deriving DecidableEq, Repr

/-- The value part of a `node_mapping` row (`NodeMappingInfo` in
`src/sync/nodes.ts`). -/
structure NodeMappingInfo where
  nodeUid : String
  parentNodeUid : String
  isDirectory : Bool
deriving DecidableEq, Repr

/-- The state-store database: `file_hashes`, `node_mapping`, `file_state`
and `sync_jobs` tables, plus the id counter used when inserting jobs. -/
structure SyncStore where
  fileHashes : List (String × String) := []
  nodeMapping : List (String × NodeMappingInfo) := []
  fileState : List (String × String) := []
  jobs : List Job := []
  nextJobId : Nat := 0
deriving DecidableEq, Repr

/-- The empty database. -/
def SyncStore.empty : SyncStore := {}

/-! ## `src/sync/nodes.ts` (file `unnamed/part_003`) -/

/-- `getNodeMapping` (nodes.ts:30). -/
def getNodeMapping (localPath : String) (s : SyncStore) : Option NodeMappingInfo :=
  lookupKey localPath s.nodeMapping

/-- `setNodeMapping` (nodes.ts:48): upsert keyed on `localPath`; no-op in
dry-run mode. -/
def setNodeMapping (localPath nodeUid parentNodeUid : String) (isDirectory : Bool)
    (dryRun : Bool) (s : SyncStore) : SyncStore :=
  if dryRun then s
  else { s with nodeMapping := upsert localPath ⟨nodeUid, parentNodeUid, isDirectory⟩ s.nodeMapping }

/-- `deleteNodeMapping` (nodes.ts:80): delete the row for `localPath`;
no-op in dry-run mode. -/
def deleteNodeMapping (localPath : String) (dryRun : Bool) (s : SyncStore) : SyncStore :=
  if dryRun then s
  else { s with nodeMapping := delKey localPath s.nodeMapping }

/-- `updateNodeMappingPath` (nodes.ts:99): `UPDATE node_mapping SET
localPath = new [, parentNodeUid = ..] WHERE localPath = old`. -/
def updateNodeMappingPath (oldLocalPath newLocalPath : String)
    (newParentNodeUid : Option String) (dryRun : Bool) (s : SyncStore) : SyncStore :=
  if dryRun then s
  else
    { s with
      nodeMapping := s.nodeMapping.map fun e =>
        if e.1 = oldLocalPath then
          (newLocalPath,
            { e.2 with parentNodeUid := newParentNodeUid.getD e.2.parentNodeUid })
        else e }

/-- `updateNodeMappingsUnderPath` (nodes.ts:123): for each row whose
`localPath` matches `LIKE oldDirPath ++ "/%"`, replace the path by
`newDirPath ++ localPath.slice(oldDirPath.length)`. -/
def updateNodeMappingsUnderPath (oldDirPath newDirPath : String)
    (dryRun : Bool) (s : SyncStore) : SyncStore :=
  if dryRun then s
  else
    let px := if strEndsWith oldDirPath "/" then oldDirPath else oldDirPath ++ "/"
    { s with
      nodeMapping := s.nodeMapping.map fun e =>
        if strStartsWith e.1 px then (newDirPath ++ strDrop e.1 oldDirPath.length, e.2) else e }

/-! ## `src/sync/hashes.ts` -/

/-- `getStoredHash` (hashes.ts:21). -/
def getStoredHash (localPath : String) (s : SyncStore) : Option String :=
  lookupKey localPath s.fileHashes

/-- `setFileHash` (hashes.ts:128): upsert keyed on `localPath`; no-op in
dry-run mode. -/
def setFileHash (localPath contentHash : String) (dryRun : Bool) (s : SyncStore) : SyncStore :=
  if dryRun then s
  else { s with fileHashes := upsert localPath contentHash s.fileHashes }

/-- `deleteStoredHash` (hashes.ts:29). -/
def deleteStoredHash (localPath : String) (dryRun : Bool) (s : SyncStore) : SyncStore :=
  if dryRun then s
  else { s with fileHashes := delKey localPath s.fileHashes }

/-- `updateStoredHashPath` (hashes.ts:48). -/
def updateStoredHashPath (oldLocalPath newLocalPath : String)
    (dryRun : Bool) (s : SyncStore) : SyncStore :=
  if dryRun then s
  else
    { s with
      fileHashes := s.fileHashes.map fun e =>
        if e.1 = oldLocalPath then (newLocalPath, e.2) else e }

/-- `updateStoredHashesUnderPath` (hashes.ts:65). -/
def updateStoredHashesUnderPath (oldDirPath newDirPath : String)
    (dryRun : Bool) (s : SyncStore) : SyncStore :=
  if dryRun then s
  else
    let px := if strEndsWith oldDirPath "/" then oldDirPath else oldDirPath ++ "/"
    { s with
      fileHashes := s.fileHashes.map fun e =>
        if strStartsWith e.1 px then (newDirPath ++ strDrop e.1 oldDirPath.length, e.2) else e }

/-! ## Job queue (`src/sync/queue.ts`)

The queue module itself is not among the sources; only its callers
(`engine.ts`, `processor.ts`, the dashboard) are.  The operations below
are therefore modelled from the specification: section 3 ("at most one
row per `(localPath, state≠SYNCED)` — enqueuing coalesces"), section 4.3
(the coalescing table), section 4.4 (the operation contracts) and
section 5 ("coalescing merges additional events into the pending row;
the claim acquires the sole row"). -/

/-- The argument object passed to `enqueueJob` by its callers
(`engine.ts:82`, `processor.ts:347`). -/
structure NewJobRequest where
  eventType : SyncEventType
  localPath : String
  remotePath : String
  oldLocalPath : Option String := none
  oldRemotePath : Option String := none
  contentHash : Option String := none
deriving DecidableEq, Repr

/-- Modelled from the spec: the coalescing table of section 4.3
(existing non-SYNCED event x incoming event).  `CREATE+UPDATE→CREATE`,
`UPDATE+UPDATE→UPDATE`, `ANY+DELETE→DELETE`, `DELETE+CREATE→
DELETE_AND_CREATE`, `RENAME+UPDATE→RENAME`.  The spec's "pending UPDATE
kept separate" side row of the RENAME+UPDATE case is not representable in
a single-row-per-path store and no code in the repository enqueues RENAME
jobs, so that case keeps the RENAME row alone; combinations outside the
table take the incoming event. -/
def coalesceEventType : SyncEventType → SyncEventType → SyncEventType
  | _, .delete => .delete
  | .create, .update => .create
  | .update, .update => .update
  | .delete, .create => .deleteAndCreate
  | .rename, .update => .rename
  | _, incoming => incoming

/-- Modelled from the spec: merge an incoming event into the existing
non-SYNCED row for the same path (section 4.3 step 4; "latest hash
wins"), leaving the row PENDING and ready at `now`. -/
def mergeJob (j : Job) (req : NewJobRequest) (now : Nat) : Job :=
  { j with
    eventType := coalesceEventType j.eventType req.eventType
    remotePath := req.remotePath
    oldLocalPath := req.oldLocalPath.orElse fun _ => j.oldLocalPath
    oldRemotePath := req.oldRemotePath.orElse fun _ => j.oldRemotePath
    contentHash := req.contentHash.orElse fun _ => j.contentHash
    state := .pending
    retryAt := now }

/-- A row that the coalescing step may merge into: same `localPath`,
not SYNCED. -/
def coalesceTarget (p : String) (j : Job) : Bool :=
  j.localPath = p ∧ j.state ≠ .synced

/-- Merge `req` into the first non-SYNCED row for its path. -/
def coalesceInto (req : NewJobRequest) (now : Nat) : List Job → List Job
  | [] => []
  | j :: rest =>
    if coalesceTarget req.localPath j then mergeJob j req now :: rest
    else j :: coalesceInto req now rest

/-- Modelled from the spec: `enqueueJob` (section 4.4 `enqueue`, section
4.3 step 4-5).  If a non-SYNCED row for `localPath` exists, merge into it;
otherwise insert a fresh PENDING row with `retryAt = now`, `nRetries = 0`.
Dry-run performs no state-store writes (section 6, dry-run semantics). -/
def enqueueJob (req : NewJobRequest) (now : Nat) (dryRun : Bool) (s : SyncStore) : SyncStore :=
  if dryRun then s
  else if s.jobs.any (coalesceTarget req.localPath) then
    { s with jobs := coalesceInto req now s.jobs }
  else
    { s with
      jobs := s.jobs ++
        [{ id := s.nextJobId
           eventType := req.eventType
           localPath := req.localPath
           remotePath := req.remotePath
           oldLocalPath := req.oldLocalPath
           oldRemotePath := req.oldRemotePath
           contentHash := req.contentHash
           state := .pending
           nRetries := 0
           retryAt := now }]
      nextJobId := s.nextJobId + 1 }

/-- Modelled from the spec: `next_ready` (section 4.4) claims the single
oldest `PENDING` row with `retryAt ≤ now` and sets it PROCESSING.  Rows
are stored in insertion (id) order, so the first match is the oldest. -/
def claimNextJob (now : Nat) : List Job → List Job
  | [] => []
  | j :: rest =>
    if j.state = .pending ∧ j.retryAt ≤ now then { j with state := .processing } :: rest
    else j :: claimNextJob now rest

/-- Modelled from the spec: `mark_synced` (section 4.4) transitions the
claimed row PROCESSING→SYNCED.  The `localPath` argument of the source's
`markJobSynced(id, localPath, dryRun, tx)` feeds the dashboard job-event
stream and is not part of the transition. -/
def markJobSynced (id : Nat) (dryRun : Bool) (s : SyncStore) : SyncStore :=
  if dryRun then s
  else
    { s with
      jobs := s.jobs.map fun j =>
        if j.id = id ∧ j.state = .processing then { j with state := .synced } else j }

/-- Modelled from the spec: `mark_blocked` (section 4.4), terminal
transition PROCESSING→BLOCKED with the error recorded. -/
def markJobBlocked (id : Nat) (err : String) (dryRun : Bool) (s : SyncStore) : SyncStore :=
  if dryRun then s
  else
    { s with
      jobs := s.jobs.map fun j =>
        if j.id = id ∧ j.state = .processing then
          { j with state := .blocked, lastError := some err }
        else j }

/-- Modelled from the spec: `setJobError` records `lastError` on the row. -/
def setJobError (id : Nat) (err : String) (dryRun : Bool) (s : SyncStore) : SyncStore :=
  if dryRun then s
  else
    { s with
      jobs := s.jobs.map fun j =>
        if j.id = id then { j with lastError := some err } else j }

/-- Modelled from the spec: `schedule_retry` (section 4.4) returns the
claimed row to PENDING, increments `nRetries` and pushes `retryAt` by the
backoff delay (the delay value is irrelevant to the claims below). -/
def scheduleRetry (id : Nat) (delay now : Nat) (dryRun : Bool) (s : SyncStore) : SyncStore :=
  if dryRun then s
  else
    { s with
      jobs := s.jobs.map fun j =>
        if j.id = id ∧ j.state = .processing then
          { j with state := .pending, nRetries := j.nRetries + 1, retryAt := now + delay }
        else j }

/-- Modelled from the spec: startup recovery (section 4.1) resets every
PROCESSING row to PENDING with `retryAt = now`. -/
def startupRecovery (now : Nat) (s : SyncStore) : SyncStore :=
  { s with
    jobs := s.jobs.map fun j =>
      if j.state = .processing then { j with state := .pending, retryAt := now } else j }

/-! ## Processor completion transactions (`src/sync/processor.ts`,
file `unnamed/part_004`) -/

/-- `processJob`, DELETE success transaction (processor.ts:186-189):
`deleteNodeMapping(localPath)` then `markJobSynced(id, localPath)` in one
`db.transaction`. -/
def processJobDeleteTx (id : Nat) (localPath : String) (dryRun : Bool)
    (s : SyncStore) : SyncStore :=
  markJobSynced id dryRun (deleteNodeMapping localPath dryRun s)

/-- `processJob`, CREATE/UPDATE success transaction (processor.ts:205-211):
`setNodeMapping`, then `setFileHash` only when the job carries a
`contentHash`, then `markJobSynced`, in one `db.transaction`. -/
def processJobCreateUpdateTx (job : Job) (nodeUid parentNodeUid : String)
    (isDirectory : Bool) (dryRun : Bool) (s : SyncStore) : SyncStore :=
  let s1 := setNodeMapping job.localPath nodeUid parentNodeUid isDirectory dryRun s
  let s2 := match job.contentHash with
    | some h => setFileHash job.localPath h dryRun s1
    | none => s1
  markJobSynced job.id dryRun s2

/-- `processJob`, RENAME success transaction (processor.ts:269-273):
`updateNodeMappingPath(old, new, undefined)`, `updateStoredHashPath(old,
new)`, `markJobSynced`, in one `db.transaction`.  `oldLocalPath` is the
guarded destructuring of the job's `oldLocalPath` field. -/
def processJobRenameTx (id : Nat) (oldLocalPath localPath : String) (dryRun : Bool)
    (s : SyncStore) : SyncStore :=
  markJobSynced id dryRun
    (updateStoredHashPath oldLocalPath localPath dryRun
      (updateNodeMappingPath oldLocalPath localPath none dryRun s))

/-- `processJob`, MOVE success transaction (processor.ts:313-317). -/
def processJobMoveTx (id : Nat) (oldLocalPath localPath newParentNodeUid : String)
    (dryRun : Bool) (s : SyncStore) : SyncStore :=
  markJobSynced id dryRun
    (updateStoredHashPath oldLocalPath localPath dryRun
      (updateNodeMappingPath oldLocalPath localPath (some newParentNodeUid) dryRun s))

/-- `processJob`, REUPLOAD_NEEDED conversion branch (processor.ts:346-359):
enqueue a DELETE_AND_CREATE job for the same paths carrying the failing
job's `contentHash`; the failing row itself receives no state transition
in this branch. -/
def processJobConvertTx (job : Job) (now : Nat) (dryRun : Bool) (s : SyncStore) : SyncStore :=
  enqueueJob
    { eventType := .deleteAndCreate
      localPath := job.localPath
      remotePath := job.remotePath
      oldLocalPath := some job.localPath
      oldRemotePath := some job.remotePath
      contentHash := job.contentHash }
    now dryRun s

/-! ## Watcher records and configuration (`src/sync/watcher.ts`,
`src/config.ts`) -/

/-- `FileChange` (watcher.ts:24-33).  The source's `exists` and `new`
fields are named `fileExists` and `isNew` here (`exists` is reserved in
Lean); `type` (`'f'` or `'d'`) is `ftype`. -/
structure FileChange where
  name : String
  size : Nat
  mtimeMs : Nat
  fileExists : Bool
  ftype : Char
  isNew : Bool
  watchRoot : String
  ino : Nat
deriving DecidableEq, Repr

/-- One entry of `config.sync_dirs` (`src/config.ts`). -/
structure SyncDir where
  sourcePath : String
  remoteRoot : String
deriving DecidableEq, Repr

/-- The configuration options the engine consults. -/
structure Config where
  syncDirs : List SyncDir
deriving DecidableEq, Repr

/-- Model of Node's `path.join(a, b)` for an absolute `a` and a relative,
already-normalised `b`, which is how the engine and watcher invoke it:
plain concatenation with a separator. -/
def joinPath (a b : String) : String := a ++ "/" ++ b

/-- Model of Node's `path.basename` on a normalised path without a
trailing separator: the last `/`-separated component. -/
def basename (p : String) : String := (splitSlash p).getLastD ""

/-! ## Change classifier (`src/sync/engine.ts:52-83`, `handleFileChange`) -/

/-- The enqueue request built by `handleFileChange` (engine.ts:52-82):
`localPath = join(watchRoot, name)`; the sync dir is the first configured
entry whose `source_path` is a prefix of `watchRoot`; `remotePath =
remoteRoot + "/" + basename(watchRoot) + "/" + name` (without the leading
`remoteRoot + "/"` when the remote root is empty); DELETE when the file no
longer exists, CREATE when it is new, UPDATE otherwise.  No content hash
is computed and none is attached to the job. -/
def handleFileChangeRequest (file : FileChange) (config : Config) : NewJobRequest :=
  let localPath := joinPath file.watchRoot file.name
  let syncDir := config.syncDirs.find? fun d => strStartsWith file.watchRoot d.sourcePath
  let remoteRoot := (syncDir.map (·.remoteRoot)).getD ""
  let dirName := basename file.watchRoot
  let remotePath :=
    if remoteRoot ≠ "" then remoteRoot ++ "/" ++ dirName ++ "/" ++ file.name
    else dirName ++ "/" ++ file.name
  let eventType : SyncEventType :=
    if ¬file.fileExists then .delete
    else if file.isNew then .create
    else .update
  { eventType := eventType
    localPath := localPath
    remotePath := remotePath }

/-- `handleFileChange` (engine.ts:52-83): build the request and enqueue it
(`enqueueJob({eventType, localPath, remotePath}, dryRun)`). -/
def handleFileChange (file : FileChange) (config : Config) (now : Nat) (dryRun : Bool)
    (s : SyncStore) : SyncStore :=
  enqueueJob (handleFileChangeRequest file config) now dryRun s

/-- A watcher batch delivered to the classifier: each record is handled by
`handleFileChange` in order. -/
def handleBatch (files : List FileChange) (config : Config) (now : Nat) (dryRun : Bool)
    (s : SyncStore) : SyncStore :=
  files.foldl (fun acc f => handleFileChange f config now dryRun acc) s

/-! ## Scan-diff pass (`src/sync/watcher.ts:144-202`,
`compareWithStoredChangeTokens`) -/

/-- Per-path filesystem stats gathered by `scanDirectory`. -/
structure FsStat where
  size : Nat
  mtimeMs : Nat
  isDirectory : Bool
  ino : Nat
deriving DecidableEq, Repr

/-- `buildChangeToken` (watcher.ts:52): the string `"<mtime_ms>:<size>"`. -/
def buildChangeToken (mtimeMs size : Nat) : String :=
  toString mtimeMs ++ ":" ++ toString size

/-- Model of Node's `path.relative(watchDir, fullPath)` for the paths the
watcher produces, which are all of the form `watchDir ++ "/" ++ rest`. -/
def relativeTo (watchDir fullPath : String) : String :=
  if strStartsWith fullPath (watchDir ++ "/") then strDrop fullPath (watchDir.length + 1)
  else fullPath

/-- `compareWithStoredChangeTokens` (watcher.ts:144-202).  The two JS
`Map`s become association lists traversed in insertion order; `Date.now()`
in the deletion branch is the `now` parameter.  First loop: a scanned path
with no stored token emits `{exists:true, new:true}`; a scanned
non-directory whose token differs from the stored one emits `{exists:true,
new:false}`; everything else emits nothing.  Second loop: a stored path
absent from the scan emits `{exists:false}`. -/
def compareWithStoredChangeTokens (watchDir : String)
    (fsState : List (String × FsStat)) (storedTokens : List (String × String))
    (now : Nat) : List FileChange :=
  (fsState.filterMap fun e =>
    let currentToken := buildChangeToken e.2.mtimeMs e.2.size
    match lookupKey e.1 storedTokens with
    | none =>
      some
        { name := relativeTo watchDir e.1
          size := e.2.size
          mtimeMs := e.2.mtimeMs
          fileExists := true
          ftype := if e.2.isDirectory then 'd' else 'f'
          isNew := true
          watchRoot := watchDir
          ino := e.2.ino }
    | some storedToken =>
      if storedToken ≠ currentToken ∧ ¬e.2.isDirectory then
        some
          { name := relativeTo watchDir e.1
            size := e.2.size
            mtimeMs := e.2.mtimeMs
            fileExists := true
            ftype := 'f'
            isNew := false
            watchRoot := watchDir
            ino := e.2.ino }
      else none)
  ++ storedTokens.filterMap fun e =>
    if (lookupKey e.1 fsState).isNone then
      some
        { name := relativeTo watchDir e.1
          size := 0
          mtimeMs := now
          fileExists := false
          ftype := 'f'
          isNew := false
          watchRoot := watchDir
          ino := 0 }
    else none

/-! ## String helpers for the drive layer -/

/-- Substring test on character lists (model of JS
`String.prototype.includes`). -/
def listHasSub (hay needle : List Char) : Bool :=
  needle.isPrefixOf hay ||
    match hay with
    | [] => false
    | _ :: t => listHasSub t needle

/-- `s.includes(sub)` on strings. -/
def strIncludes (s sub : String) : Bool := listHasSub s.toList sub.toList

/-! ## `src/proton/utils.ts` -/

/-- `ParsedPath`: parent folder components and leaf name. -/
structure ParsedPath where
  parentParts : List String
  name : String
deriving DecidableEq, Repr

/-- `parsePath` (utils.ts:23-49): strip a `my_files/` or `./my_files/`
prefix and a trailing slash, then split the remainder; the leaf is Node's
`basename`, the parent components the non-empty `/`-separated parts of
Node's `dirname`.  On the slash-separated inputs the repository passes,
both reduce to the component split below. -/
def parsePath (p : String) : ParsedPath :=
  let r1 :=
    if strStartsWith p "my_files/" then strDrop p 9
    else if strStartsWith p "./my_files/" then strDrop p 11
    else p
  let r2 := if strEndsWith r1 "/" then strDropRight r1 1 else r1
  let comps := splitSlash r2
  { parentParts := comps.dropLast.filter (fun c => c ≠ "")
    name := comps.getLastD "" }

/-- A remote node as surfaced by `iterateFolderChildren`: uid, name and
type (`"folder"` or `"file"`).  Iteration entries with `ok = false` are
skipped by every consumer's `node.ok &&` guard, so only ok entries are
modelled. -/
structure DriveNode where
  uid : String
  name : String
  ntype : String
deriving DecidableEq, Repr

/-- The remote drive as the DriveClient exposes it to `delete.ts`:
the root-folder lookup result, the children of each folder uid, and the
per-item results of `trashNodes` / `deleteNodes` (`none` = ok, `some msg`
= error with message `msg`). -/
structure DriveEnv where
  rootUid : Option String
  children : String → List DriveNode
  trashResults : String → List (Option String)
  deleteResults : String → List (Option String)

/-- `findNodeByName` (utils.ts:64-76): drain the folder's children and
keep the first node whose name matches. -/
def findNodeByName (env : DriveEnv) (parentFolderUid name : String) : Option DriveNode :=
  (env.children parentFolderUid).find? fun n => n.name = name

/-- `traverseRemotePath` (utils.ts:133-155): walk the path components,
failing when a component is missing or is not a folder. -/
def traverseRemotePath (env : DriveEnv) (rootFolderUid : String) :
    List String → Option String
  | [] => some rootFolderUid
  | folderName :: rest =>
    match findNodeByName env rootFolderUid folderName with
    | none => none
    | some node =>
      if node.ntype ≠ "folder" then none
      else traverseRemotePath env node.uid rest

/-! ## `uploadFile` decision logic (`src/proton/utils.ts:340-410`,
the `create.ts` half of the file) -/

/-- The remote file found by `findFileByName`, reduced to what the upload
decision reads: its uid and `activeRevision.claimedDigests.sha1` (absent
for legacy files). -/
structure RemoteFile where
  uid : String
  activeRevisionSha1 : Option String
deriving DecidableEq, Repr

/-- The three outcomes of `uploadFile`'s branch at utils.ts:361-405. -/
inductive UploadAction where
  /-- SHA-1 digests match: skip the upload, return the existing node's uid. -/
  | skipUpload (uid : String)
  /-- A file of that name exists: stream the bytes as a new revision. -/
  | uploadRevision (uid : String)
  /-- No file of that name: stream the bytes as a new file. -/
  | uploadNewFile
deriving DecidableEq, Repr

/-- `uploadFile` (utils.ts:340-410), the upload decision.  `existingFile`
is the result of `findFileByName`; `localSha1` the result of
`computeFileSha1` (`none` when hashing failed).  When the remote carries a
SHA-1 and it equals the local digest after lowercasing both, upload is
skipped and the existing uid returned; when the digests differ, the local
digest is unavailable, or the remote carries no SHA-1, a new revision is
uploaded; with no existing file a new file is uploaded. -/
def uploadFile (existingFile : Option RemoteFile) (localSha1 : Option String) :
    UploadAction :=
  match existingFile with
  | none => .uploadNewFile
  | some f =>
    match f.activeRevisionSha1 with
    | none => .uploadRevision f.uid
    | some remoteSha1 =>
      match localSha1 with
      | none => .uploadRevision f.uid
      | some l =>
        if lowerStr l = lowerStr remoteSha1 then .skipUpload f.uid
        else .uploadRevision f.uid

/-! ## `src/proton/delete.ts` (`deleteNode`) -/

/-- Result object of `deleteNode` (`DeleteOperationResult`). -/
structure DeleteOperationResult where
  success : Bool
  existed : Bool
  nodeUid : Option String := none
  error : Option String := none
deriving DecidableEq, Repr

/-- A remote write performed by the drive layer. -/
inductive NetEffect where
  | trashCall (uid : String)
  | deleteCall (uid : String)
  | createFolderCall (parentUid name : String)
  | uploadCall (uid : String)
deriving DecidableEq, Repr

/-- A trash error that delete.ts:76-88 tolerates: its lowercased text
contains `"already"` or `"trashed"`. -/
def toleratedTrashError (msg : String) : Bool :=
  strIncludes (lowerStr msg) "already" || strIncludes (lowerStr msg) "trashed"

/-- `deleteNode` (delete.ts:31-113), with the remote writes it performs
returned as an effect log.  Resolve the parent folder (any missing
ancestor yields `success=true, existed=false` with no writes), find the
target by name (absent likewise), then trash the node — tolerating
per-item errors whose text contains "already" or "trashed" — and
permanently delete it; any intolerable trash error or any delete error
yields `success=false, existed=true`.  The function takes no dry-run
parameter: its signature is `deleteNode(client, remotePath)`. -/
def deleteNode (env : DriveEnv) (remotePath : String) :
    DeleteOperationResult × List NetEffect :=
  let pp := parsePath remotePath
  match env.rootUid with
  | none => ({ success := false, existed := false, error := some "root" }, [])
  | some rootFolderUid =>
    match traverseRemotePath env rootFolderUid pp.parentParts with
    | none => ({ success := true, existed := false }, [])
    | some targetFolderUid =>
      match findNodeByName env targetFolderUid pp.name with
      | none => ({ success := true, existed := false }, [])
      | some targetNode =>
        let trashBad :=
          (env.trashResults targetNode.uid).any fun r =>
            match r with
            | none => false
            | some msg => ¬toleratedTrashError msg
        if trashBad then
          ({ success := false, existed := true, nodeUid := some targetNode.uid,
             error := some "trash" },
           [.trashCall targetNode.uid])
        else
          let deleteBad :=
            (env.deleteResults targetNode.uid).any fun r => r.isSome
          if deleteBad then
            ({ success := false, existed := true, nodeUid := some targetNode.uid,
               error := some "delete" },
             [.trashCall targetNode.uid, .deleteCall targetNode.uid])
          else
            ({ success := true, existed := true, nodeUid := some targetNode.uid },
             [.trashCall targetNode.uid, .deleteCall targetNode.uid])

/-! ## `createNode` dry-run short-circuit (`src/proton/utils.ts:449-462`,
the `create.ts` half of the file) -/

/-- Result object of `createNode` (`CreateResult`), reduced to the fields
the processor reads. -/
structure CreateResult where
  success : Bool
  nodeUid : Option String := none
  parentNodeUid : Option String := none
  isDirectory : Bool := false
deriving DecidableEq, Repr

/-- `createNode`'s dry-run guard (utils.ts:455-462): with `dryRun = true`
it returns the dummy result immediately, before any client call, so no
remote write occurs; the non-dry path is abstracted by `liveRun`, the
result of the real traversal-and-upload together with its effect log. -/
def createNode (dryRun : Bool) (liveRun : CreateResult × List NetEffect) :
    CreateResult × List NetEffect :=
  if dryRun then
    ({ success := true, nodeUid := some "dry-run-node-uid",
       parentNodeUid := some "dry-run-parent-uid", isDirectory := false }, [])
  else liveRun

/-! ## The job-store state machine

Every mutation of the `sync_jobs` table performed by the engine, the
queue and the processor, collected into one reachability predicate.  The
processor's failure handling chooses between blocking, retrying and the
DELETE_AND_CREATE conversion according to `categorizeError` (part of the
absent queue module); all three outcomes are included as steps, which
over-approximates the reachable states. -/

/-- Number of non-SYNCED `sync_jobs` rows for a path (the spec's
section 3 invariant "at most one row per `(localPath, state≠SYNCED)`"). -/
def nonSyncedCount (s : SyncStore) (p : String) : Nat :=
  (s.jobs.filter (coalesceTarget p)).length

/-- A live row: PENDING or PROCESSING. -/
def liveJob (p : String) (j : Job) : Bool :=
  j.localPath = p ∧ (j.state = .pending ∨ j.state = .processing)

/-- Number of PENDING-or-PROCESSING `sync_jobs` rows for a path. -/
def liveJobCount (s : SyncStore) (p : String) : Nat :=
  (s.jobs.filter (liveJob p)).length

/-- States of the store reachable from the empty database through the
operations of the engine, queue and processor. -/
inductive Reachable : SyncStore → Prop where
  | empty : Reachable SyncStore.empty
  | enqueue {s} (req : NewJobRequest) (now : Nat) (dryRun : Bool) :
      Reachable s → Reachable (enqueueJob req now dryRun s)
  | claim {s} (now : Nat) :
      Reachable s → Reachable { s with jobs := claimNextJob now s.jobs }
  | markSynced {s} (id : Nat) (dryRun : Bool) :
      Reachable s → Reachable (markJobSynced id dryRun s)
  | markBlocked {s} (id : Nat) (err : String) (dryRun : Bool) :
      Reachable s → Reachable (markJobBlocked id err dryRun s)
  | setError {s} (id : Nat) (err : String) (dryRun : Bool) :
      Reachable s → Reachable (setJobError id err dryRun s)
  | retry {s} (id delay now : Nat) (dryRun : Bool) :
      Reachable s → Reachable (scheduleRetry id delay now dryRun s)
  | recover {s} (now : Nat) :
      Reachable s → Reachable (startupRecovery now s)
  | deleteTx {s} (id : Nat) (localPath : String) (dryRun : Bool) :
      Reachable s → Reachable (processJobDeleteTx id localPath dryRun s)
  | createUpdateTx {s} (job : Job) (nodeUid parentNodeUid : String)
      (isDirectory dryRun : Bool) :
      Reachable s →
      Reachable (processJobCreateUpdateTx job nodeUid parentNodeUid isDirectory dryRun s)
  | renameTx {s} (id : Nat) (oldLocalPath localPath : String) (dryRun : Bool) :
      Reachable s → Reachable (processJobRenameTx id oldLocalPath localPath dryRun s)
  | moveTx {s} (id : Nat) (oldLocalPath localPath newParentNodeUid : String)
      (dryRun : Bool) :
      Reachable s →
      Reachable (processJobMoveTx id oldLocalPath localPath newParentNodeUid dryRun s)
  | convertTx {s} (job : Job) (now : Nat) (dryRun : Bool) :
      Reachable s → Reachable (processJobConvertTx job now dryRun s)

/-! ## Concrete instances used by the claim theorems and witnesses -/

/-- The store of the C5 counterexample: all three rows exist for
`/r/a.txt` and its DELETE job has been claimed. -/
def c5Store : SyncStore :=
  { fileHashes := [("/r/a.txt", "h1")]
    nodeMapping := [("/r/a.txt", ⟨"u1", "pu", false⟩)]
    fileState := [("/r/a.txt", "5:3")]
    jobs := [{ id := 0, eventType := .delete, localPath := "/r/a.txt",
               remotePath := "docs/a.txt", state := .processing }]
    nextJobId := 1 }

/-- The store of the C6 failing input: a directory `/r/dir` with one
child file, both mapped and the child hashed, and the claimed RENAME job
for `/r/dir` → `/r/dir2`. -/
def c6Store : SyncStore :=
  { nodeMapping := [("/r/dir", ⟨"du", "ru", true⟩), ("/r/dir/b.txt", ⟨"bu", "du", false⟩)]
    fileHashes := [("/r/dir/b.txt", "hb")]
    fileState := [("/r/dir/b.txt", "4:2")]
    jobs := [{ id := 0, eventType := .rename, localPath := "/r/dir2",
               remotePath := "docs/dir2", oldLocalPath := some "/r/dir",
               oldRemotePath := some "docs/dir", state := .processing }]
    nextJobId := 1 }

/-- The CREATE event of the C1 counterexample and the configuration in
force. -/
def c1Event : FileChange :=
  { name := "c.txt", size := 3, mtimeMs := 9, fileExists := true, ftype := 'f',
    isNew := true, watchRoot := "/home/u/docs", ino := 2 }

/-- Configuration used by the C1/C3/C4 scenarios. -/
def c1Config : Config := { syncDirs := [⟨"/home/u/docs", "remote"⟩] }

/-- The job row produced by enqueuing `c1Event` and claiming it. -/
def c1Job : Job :=
  { id := 0, eventType := .create, localPath := "/home/u/docs/c.txt",
    remotePath := "remote/docs/c.txt", state := .processing }

/-- The change event of the C3 counterexample: `a.txt` exists, is not
new (only its mtime was touched, so the change token differs and the
watcher forwards the event). -/
def c3Event : FileChange :=
  { name := "a.txt", size := 3, mtimeMs := 8, fileExists := true, ftype := 'f',
    isNew := false, watchRoot := "/home/u/docs", ino := 1 }

/-- The store of the C3 counterexample: the stored FileHash for the path
equals the SHA-1 of the file's (unchanged) bytes, and the stored change
token carries the old mtime. -/
def c3Store : SyncStore :=
  { fileHashes := [("/home/u/docs/a.txt", "2aae6c35c94fcfb415dbe95f408b9ce91ee846ed")]
    fileState := [("/home/u/docs/a.txt", "7:3")] }

/-- The DELETE half of the C4 batch: `b.txt` disappeared. -/
def c4DelEvent : FileChange :=
  { name := "b.txt", size := 0, mtimeMs := 100, fileExists := false, ftype := 'f',
    isNew := false, watchRoot := "/home/u/docs", ino := 0 }

/-- The CREATE half of the C4 batch: `c.txt` appeared in the same batch
with the same size (and, by stipulation, the same SHA-1) as `b.txt`. -/
def c4CreEvent : FileChange :=
  { name := "c.txt", size := 3, mtimeMs := 100, fileExists := true, ftype := 'f',
    isNew := true, watchRoot := "/home/u/docs", ino := 7 }

/-- The per-item trash/delete results that delete.ts treats as passing:
ok items, and trash errors whose text is tolerated. -/
def trashResultsTolerated (env : DriveEnv) (uid : String) : Bool :=
  (env.trashResults uid).all fun res =>
    match res with
    | none => true
    | some m => toleratedTrashError m

/-- All delete results ok. -/
def deleteResultsOk (env : DriveEnv) (uid : String) : Bool :=
  (env.deleteResults uid).all fun res => res.isNone

/-- The remote drive of the C9 witness: `docs/a.txt` exists under the
root, its single trash result reports "Already trashed", its delete
succeeds. -/
def c9Env : DriveEnv :=
  { rootUid := some "root"
    children := fun u =>
      if u = "root" then [⟨"d1", "docs", "folder"⟩]
      else if u = "d1" then [⟨"f1", "a.txt", "file"⟩]
      else []
    trashResults := fun _ => [some "Already trashed"]
    deleteResults := fun _ => [] }

/-- The scan and stored tokens of the C10 witness: one new file, one
modified file, one directory whose token changed, one vanished path. -/
def c10Fs : List (String × FsStat) :=
  [("/w/new.txt", ⟨3, 5, false, 1⟩), ("/w/f.txt", ⟨4, 6, false, 2⟩),
   ("/w/d", ⟨0, 99, true, 3⟩)]

/-- Stored change tokens of the C10 witness. -/
def c10Stored : List (String × String) :=
  [("/w/f.txt", "1:1"), ("/w/d", "2:0"), ("/w/gone.txt", "1:1")]

/-- The remote drive of the C8 failing input: `docs/a.txt` exists and
both its trash and its delete succeed. -/
def c8Env : DriveEnv :=
  { rootUid := some "root"
    children := fun u =>
      if u = "root" then [⟨"d1", "docs", "folder"⟩]
      else if u = "d1" then [⟨"f1", "a.txt", "file"⟩]
      else []
    trashResults := fun _ => []
    deleteResults := fun _ => [] }

/-- The enqueue request of the C2 witness trace. -/
def c2Req : NewJobRequest :=
  { eventType := .update, localPath := "/home/u/docs/a.txt",
    remotePath := "remote/docs/a.txt" }

/-- Witness stage 1: the UPDATE job enqueued into the empty store. -/
def c2S1 : SyncStore := enqueueJob c2Req 0 false SyncStore.empty

/-- Witness stage 2: the job claimed (PENDING→PROCESSING). -/
def c2S2 : SyncStore := { c2S1 with jobs := claimNextJob 0 c2S1.jobs }

/-- The claimed row of the witness trace. -/
def c2Job : Job :=
  { id := 0, eventType := .update, localPath := "/home/u/docs/a.txt",
    remotePath := "remote/docs/a.txt", state := .processing, retryAt := 0 }

/-- Witness stage 3: the failing job converted to DELETE_AND_CREATE. -/
def c2S3 : SyncStore := processJobConvertTx c2Job 50 false c2S2


/-! ## Association-list lemmas -/

/-- Upserting a key makes it retrievable. -/
theorem lookupKey_upsert_self (k : String) (v : α) :
    ∀ l : List (String × α), lookupKey k (upsert k v l) = some v := by
  intro l
  induction l with
  | nil => simp [upsert, lookupKey]
  | cons e rest ih =>
    by_cases he : e.1 = k
    · simp [upsert, he, lookupKey]
    · simp only [upsert, if_neg he]
      simpa [lookupKey, List.find?_cons, he] using ih

/-- Upserting one key leaves lookups of other keys unchanged. -/
theorem lookupKey_upsert_other (k k' : String) (v : α) (hne : k' ≠ k) :
    ∀ l : List (String × α), lookupKey k' (upsert k v l) = lookupKey k' l := by
  intro l
  induction l with
  | nil => simp [upsert, lookupKey, Ne.symm hne]
  | cons e rest ih =>
    by_cases he : e.1 = k
    · simp [upsert, he, lookupKey, List.find?_cons, Ne.symm hne, hne]
    · simp only [upsert, if_neg he]
      by_cases he' : e.1 = k'
      · simp [lookupKey, List.find?_cons, he']
      · simpa [lookupKey, List.find?_cons, he'] using ih

/-- Deleting a key removes it from lookups. -/
theorem lookupKey_delKey_self (k : String) :
    ∀ l : List (String × α), lookupKey k (delKey k l) = none := by
  intro l
  induction l with
  | nil => rfl
  | cons e rest ih =>
    by_cases he : e.1 = k
    · rw [show delKey k (e :: rest) = delKey k rest by simp [delKey, List.filter_cons, he]]
      exact ih
    · rw [show delKey k (e :: rest) = e :: delKey k rest by
        simp [delKey, List.filter_cons, he]]
      rw [show lookupKey k (e :: delKey k rest) = lookupKey k (delKey k rest) by
        simp [lookupKey, List.find?_cons, he]]
      exact ih

/-! ## Field-preservation lemmas for the store operations -/

/-- `markJobSynced` touches only `sync_jobs`. -/
theorem markJobSynced_tables (id : Nat) (d : Bool) (s : SyncStore) :
    (markJobSynced id d s).fileHashes = s.fileHashes ∧
      (markJobSynced id d s).nodeMapping = s.nodeMapping ∧
      (markJobSynced id d s).fileState = s.fileState := by
  unfold markJobSynced
  split <;> exact ⟨rfl, rfl, rfl⟩

/-- `setNodeMapping` leaves `sync_jobs` untouched. -/
theorem setNodeMapping_jobs (lp u pu : String) (dir d : Bool) (s : SyncStore) :
    (setNodeMapping lp u pu dir d s).jobs = s.jobs := by
  unfold setNodeMapping; split <;> rfl

/-- `deleteNodeMapping` leaves `sync_jobs` untouched. -/
theorem deleteNodeMapping_jobs (lp : String) (d : Bool) (s : SyncStore) :
    (deleteNodeMapping lp d s).jobs = s.jobs := by
  unfold deleteNodeMapping; split <;> rfl

/-- `setFileHash` leaves `sync_jobs` untouched. -/
theorem setFileHash_jobs (lp h : String) (d : Bool) (s : SyncStore) :
    (setFileHash lp h d s).jobs = s.jobs := by
  unfold setFileHash; split <;> rfl

/-- `updateNodeMappingPath` leaves `sync_jobs` untouched. -/
theorem updateNodeMappingPath_jobs (o n : String) (pu : Option String) (d : Bool)
    (s : SyncStore) : (updateNodeMappingPath o n pu d s).jobs = s.jobs := by
  unfold updateNodeMappingPath; split <;> rfl

/-- `updateStoredHashPath` leaves `sync_jobs` untouched. -/
theorem updateStoredHashPath_jobs (o n : String) (d : Bool) (s : SyncStore) :
    (updateStoredHashPath o n d s).jobs = s.jobs := by
  unfold updateStoredHashPath; split <;> rfl

/-! ## C5 — successful DELETE and the three per-path rows -/

/-- C5 (amended): the DELETE completion transaction
(`processor.ts:186-189`) removes the NodeMapping row for the deleted path
and marks the job SYNCED, but it does not touch the `file_hashes` or
`file_state` tables, so those two rows survive when present. -/
theorem deleteTx_removes_only_nodeMapping (s : SyncStore) (id : Nat) (lp : String) :
    getNodeMapping lp (processJobDeleteTx id lp false s) = none ∧
      (processJobDeleteTx id lp false s).fileHashes = s.fileHashes ∧
      (processJobDeleteTx id lp false s).fileState = s.fileState := by
  unfold processJobDeleteTx
  refine ⟨?_, ?_, ?_⟩
  · have h1 := (markJobSynced_tables id false (deleteNodeMapping lp false s)).2.1
    unfold getNodeMapping
    rw [h1]
    unfold deleteNodeMapping
    simpa using lookupKey_delKey_self lp s.nodeMapping
  · rw [(markJobSynced_tables id false _).1]
    unfold deleteNodeMapping; rfl
  · rw [(markJobSynced_tables id false _).2.2]
    unfold deleteNodeMapping; rfl

/-- C5 counterexample: after the successful DELETE of `/r/a.txt`, the
claim says none of the three rows remain, but the `file_hashes` and
`file_state` rows are still present (only the NodeMapping row is gone,
and the job is SYNCED). -/
theorem deleteTx_leaves_hash_and_state :
    getStoredHash "/r/a.txt" (processJobDeleteTx 0 "/r/a.txt" false c5Store) = some "h1" ∧
      lookupKey "/r/a.txt" (processJobDeleteTx 0 "/r/a.txt" false c5Store).fileState =
        some "5:3" ∧
      getNodeMapping "/r/a.txt" (processJobDeleteTx 0 "/r/a.txt" false c5Store) = none ∧
      (processJobDeleteTx 0 "/r/a.txt" false c5Store).jobs.map (·.state) = [.synced] := by
  decide

/-! ## C6 — directory rename and the subtree rows -/

/-- C6 evaluated at the failing input: the RENAME completion transaction
(`processor.ts:269-273`) rewrites only the exact-path rows, so the
descendant rows `/r/dir/b.txt` survive under the old prefix in all three
tables, while the uncalled helper `updateNodeMappingsUnderPath`
(`nodes.ts:123-144`, documented "when the directory is renamed") would
have rewritten the NodeMapping subtree as the claim demands. -/
theorem renameTx_leaves_subtree_under_old_dir :
    getNodeMapping "/r/dir/b.txt" (processJobRenameTx 0 "/r/dir" "/r/dir2" false c6Store) =
        some ⟨"bu", "du", false⟩ ∧
      getStoredHash "/r/dir/b.txt" (processJobRenameTx 0 "/r/dir" "/r/dir2" false c6Store) =
        some "hb" ∧
      lookupKey "/r/dir/b.txt"
          (processJobRenameTx 0 "/r/dir" "/r/dir2" false c6Store).fileState = some "4:2" ∧
      getNodeMapping "/r/dir2/b.txt" (processJobRenameTx 0 "/r/dir" "/r/dir2" false c6Store) =
        none ∧
      (updateNodeMappingsUnderPath "/r/dir" "/r/dir2" false c6Store).nodeMapping =
        [("/r/dir", ⟨"du", "ru", true⟩), ("/r/dir2/b.txt", ⟨"bu", "du", false⟩)] := by
  decide

/-! ## C1 — successful CREATE/UPDATE and the three per-path rows -/

/-- C1 (amended): the CREATE/UPDATE completion transaction
(`processor.ts:205-211`) inserts the NodeMapping row for the job's path;
it writes the FileHash row exactly when the job carries a `contentHash`
(and then stores that hash); with no `contentHash` — and jobs enqueued by
`handleFileChange` never carry one — the `file_hashes` table is untouched,
and the transaction never writes `file_state`. -/
theorem createUpdateTx_state (s : SyncStore) (job : Job)
    (nodeUid parentNodeUid : String) (isDirectory : Bool) :
    getNodeMapping job.localPath
        (processJobCreateUpdateTx job nodeUid parentNodeUid isDirectory false s) =
        some ⟨nodeUid, parentNodeUid, isDirectory⟩ ∧
      (∀ h, job.contentHash = some h →
        getStoredHash job.localPath
            (processJobCreateUpdateTx job nodeUid parentNodeUid isDirectory false s) =
          some h) ∧
      (job.contentHash = none →
        (processJobCreateUpdateTx job nodeUid parentNodeUid isDirectory false s).fileHashes =
          s.fileHashes) ∧
      (processJobCreateUpdateTx job nodeUid parentNodeUid isDirectory false s).fileState =
        s.fileState ∧
      (∀ f c, (handleFileChangeRequest f c).contentHash = none) := by
  refine ⟨?_, ?_, ?_, ?_, fun f c => rfl⟩
  · unfold processJobCreateUpdateTx getNodeMapping
    rw [(markJobSynced_tables _ _ _).2.1]
    cases hch : job.contentHash with
    | none =>
      simp only [hch]
      unfold setNodeMapping
      simpa using lookupKey_upsert_self job.localPath _ s.nodeMapping
    | some h =>
      simp only [hch]
      unfold setFileHash setNodeMapping
      simpa using lookupKey_upsert_self job.localPath _ s.nodeMapping
  · intro h hch
    unfold processJobCreateUpdateTx getStoredHash
    rw [(markJobSynced_tables _ _ _).1]
    simp only [hch]
    unfold setFileHash setNodeMapping
    simpa using lookupKey_upsert_self job.localPath h s.fileHashes
  · intro hch
    unfold processJobCreateUpdateTx
    rw [(markJobSynced_tables _ _ _).1]
    simp only [hch]
    unfold setNodeMapping
    rfl
  · unfold processJobCreateUpdateTx
    rw [(markJobSynced_tables _ _ _).2.2]
    cases hch : job.contentHash with
    | none => simp only [hch]; unfold setNodeMapping; rfl
    | some h => simp only [hch]; unfold setFileHash setNodeMapping; rfl

/-- Witness for the amended C1 at a concrete UPDATE job carrying a
content hash. -/
theorem createUpdateTx_state_witness :
    getNodeMapping "/r/a.txt"
        (processJobCreateUpdateTx
          { id := 3, eventType := .update, localPath := "/r/a.txt",
            remotePath := "docs/a.txt", contentHash := some "abc",
            state := .processing }
          "u9" "pu9" false false c5Store) = some ⟨"u9", "pu9", false⟩ ∧
      getStoredHash "/r/a.txt"
          (processJobCreateUpdateTx
            { id := 3, eventType := .update, localPath := "/r/a.txt",
              remotePath := "docs/a.txt", contentHash := some "abc",
              state := .processing }
            "u9" "pu9" false false c5Store) = some "abc" := by
  exact ⟨(createUpdateTx_state c5Store
      { id := 3, eventType := .update, localPath := "/r/a.txt",
        remotePath := "docs/a.txt", contentHash := some "abc",
        state := .processing } "u9" "pu9" false).1,
    (createUpdateTx_state c5Store
      { id := 3, eventType := .update, localPath := "/r/a.txt",
        remotePath := "docs/a.txt", contentHash := some "abc",
        state := .processing } "u9" "pu9" false).2.1 "abc" rfl⟩

/-- C1 counterexample: the engine's CREATE job for `c.txt` carries no
`contentHash` (handleFileChange never computes one), so after the job
completes successfully the `file_hashes` table still has no row for the
path — the claim's "FileHash[localPath] present and equal to the SHA-1 of
the local file's bytes" fails, while NodeMapping is present and the job
is SYNCED. -/
theorem createUpdateTx_no_fileHash_for_engine_jobs :
    (handleFileChange c1Event c1Config 0 false SyncStore.empty).jobs.map
        (fun j => (j.contentHash, j.eventType)) = [(none, .create)] ∧
      claimNextJob 0 (handleFileChange c1Event c1Config 0 false SyncStore.empty).jobs =
        [c1Job] ∧
      getStoredHash "/home/u/docs/c.txt"
          (processJobCreateUpdateTx c1Job "u-new" "u-parent" false false
            { handleFileChange c1Event c1Config 0 false SyncStore.empty with
              jobs := [c1Job] }) = none ∧
      getNodeMapping "/home/u/docs/c.txt"
          (processJobCreateUpdateTx c1Job "u-new" "u-parent" false false
            { handleFileChange c1Event c1Config 0 false SyncStore.empty with
              jobs := [c1Job] }) = some ⟨"u-new", "u-parent", false⟩ ∧
      (processJobCreateUpdateTx c1Job "u-new" "u-parent" false false
          { handleFileChange c1Event c1Config 0 false SyncStore.empty with
            jobs := [c1Job] }).jobs.map (·.state) = [.synced] := by
  decide

/-! ## C3 — change event on a file with unchanged bytes -/

/-- C3 counterexample: for a change event on a file whose bytes are
unchanged (the stored FileHash equals the SHA-1 of the bytes), the
classifier enqueues one UPDATE job, not zero: `handleFileChange`
(engine.ts:52-83) never consults the hash store. -/
theorem unchanged_file_event_enqueues_one_job :
    getStoredHash "/home/u/docs/a.txt" c3Store =
        some "2aae6c35c94fcfb415dbe95f408b9ce91ee846ed" ∧
      (handleFileChange c3Event c1Config 0 false c3Store).jobs.length = 1 ∧
      (handleFileChange c3Event c1Config 0 false c3Store).jobs.map (·.eventType) =
        [.update] := by
  decide

/-- C3 (amended): every change event on an existing, non-new path makes
`handleFileChange` enqueue exactly one UPDATE job carrying no content
hash (here: into a store with no live row for the path); the stored
FileHash is never read, so an event whose bytes are unchanged still
yields that UPDATE job. -/
theorem change_event_always_enqueues_update (f : FileChange) (c : Config)
    (now : Nat) (s : SyncStore)
    (hex : f.fileExists = true) (hnew : f.isNew = false)
    (hnone : s.jobs.any (coalesceTarget (joinPath f.watchRoot f.name)) = false) :
    handleFileChange f c now false s =
      { s with
        jobs := s.jobs ++
          [{ id := s.nextJobId, eventType := .update,
             localPath := joinPath f.watchRoot f.name,
             remotePath := (handleFileChangeRequest f c).remotePath,
             contentHash := none, state := .pending, nRetries := 0, retryAt := now }]
        nextJobId := s.nextJobId + 1 } := by
  have hreq : handleFileChangeRequest f c =
      { eventType := .update, localPath := joinPath f.watchRoot f.name,
        remotePath := (handleFileChangeRequest f c).remotePath } := by
    unfold handleFileChangeRequest
    simp [hex, hnew]
  unfold handleFileChange enqueueJob
  rw [hreq]
  simp only [hnone]
  simp

/-- Witness for the amended C3 at the concrete mtime-touch event. -/
theorem change_event_always_enqueues_update_witness :
    handleFileChange c3Event c1Config 0 false c3Store =
      { c3Store with
        jobs := [{ id := 0, eventType := .update,
                   localPath := joinPath "/home/u/docs" "a.txt",
                   remotePath := (handleFileChangeRequest c3Event c1Config).remotePath,
                   contentHash := none, state := .pending, nRetries := 0, retryAt := 0 }]
        nextJobId := 1 } := by
  have h := change_event_always_enqueues_update c3Event c1Config 0 c3Store
    (by decide) (by decide) (by decide)
  simpa using h

/-! ## C4 — rename detection in a watcher batch -/

/-- C4 counterexample: a batch holding a DELETE of `b.txt` and a CREATE
of `c.txt` with matching content produces two jobs — a DELETE for the old
path and a CREATE for the new path — and no RENAME or MOVE job at all,
contradicting "exactly one RENAME job ... and the raw DELETE and CREATE
events produce no separate jobs". -/
theorem rename_batch_produces_delete_and_create :
    (handleBatch [c4DelEvent, c4CreEvent] c1Config 0 false SyncStore.empty).jobs.map
        (fun j => (j.eventType, j.localPath)) =
      [(.delete, "/home/u/docs/b.txt"), (.create, "/home/u/docs/c.txt")] ∧
      ((handleBatch [c4DelEvent, c4CreEvent] c1Config 0 false SyncStore.empty).jobs.filter
          (fun j => j.eventType = .rename ∨ j.eventType = .move)).length = 0 := by
  decide

/-- Coalescing never manufactures a RENAME or MOVE event from inputs that
are neither. -/
theorem coalesceEventType_no_rename_move (e i : SyncEventType)
    (he : e ≠ .rename ∧ e ≠ .move) (hi : i ≠ .rename ∧ i ≠ .move) :
    coalesceEventType e i ≠ .rename ∧ coalesceEventType e i ≠ .move := by
  cases e <;> cases i <;> simp_all [coalesceEventType]

/-- `enqueueJob` with a non-RENAME/MOVE request keeps the job table free
of RENAME and MOVE rows. -/
theorem enqueueJob_preserves_no_rename_move (req : NewJobRequest) (now : Nat)
    (d : Bool) (s : SyncStore)
    (hreq : req.eventType ≠ .rename ∧ req.eventType ≠ .move)
    (h : ∀ j ∈ s.jobs, j.eventType ≠ .rename ∧ j.eventType ≠ .move) :
    ∀ j ∈ (enqueueJob req now d s).jobs,
      j.eventType ≠ .rename ∧ j.eventType ≠ .move := by
  unfold enqueueJob
  split
  · exact h
  · split
    · intro j hj
      have : ∀ l : List Job, (∀ j' ∈ l, j'.eventType ≠ .rename ∧ j'.eventType ≠ .move) →
          ∀ j' ∈ coalesceInto req now l,
            j'.eventType ≠ .rename ∧ j'.eventType ≠ .move := by
        intro l
        induction l with
        | nil => intro _ j' hj'; cases hj'
        | cons a t ih =>
          intro hl j' hj'
          unfold coalesceInto at hj'
          split at hj'
          · rcases List.mem_cons.1 hj' with h1 | h1
            · subst h1
              exact coalesceEventType_no_rename_move a.eventType req.eventType
                (hl a (by simp)) hreq
            · exact hl j' (by simp [h1])
          · rcases List.mem_cons.1 hj' with h1 | h1
            · subst h1; exact hl j' (by simp)
            · exact ih (fun x hx => hl x (by simp [hx])) j' h1
      exact this s.jobs h j hj
    · intro j hj
      simp only [List.mem_append, List.mem_singleton] at hj
      rcases hj with hj | hj
      · exact h j hj
      · subst hj; exact hreq

/-- C4 (amended): the classifier performs no rename/move correlation.
Each raw event yields its own job via `handleFileChange` (the DELETE a
DELETE job, the CREATE a CREATE job, as the counterexample evaluates),
and no batch ever enqueues a RENAME or MOVE job: a job table without
RENAME/MOVE rows still has none after any batch is classified. -/
theorem classifier_never_emits_rename_move (files : List FileChange) (c : Config)
    (now : Nat) (d : Bool) (s : SyncStore)
    (h : ∀ j ∈ s.jobs, j.eventType ≠ .rename ∧ j.eventType ≠ .move) :
    ∀ j ∈ (handleBatch files c now d s).jobs,
      j.eventType ≠ .rename ∧ j.eventType ≠ .move := by
  induction files generalizing s with
  | nil => exact h
  | cons f rest ih =>
    refine ih (handleFileChange f c now d s) ?_
    unfold handleFileChange
    refine enqueueJob_preserves_no_rename_move _ now d s ?_ h
    unfold handleFileChangeRequest
    constructor <;> (simp only []; split <;> simp_all) <;> split <;> simp_all

/-- Witness for the amended C4: the DELETE row produced by the concrete
rename-shaped batch is itself neither RENAME nor MOVE. -/
theorem classifier_never_emits_rename_move_witness :
    ({ id := 0, eventType := .delete, localPath := "/home/u/docs/b.txt",
       remotePath := "remote/docs/b.txt", state := .pending,
       retryAt := 0 : Job }).eventType ≠ SyncEventType.rename ∧
      ({ id := 0, eventType := .delete, localPath := "/home/u/docs/b.txt",
         remotePath := "remote/docs/b.txt", state := .pending,
         retryAt := 0 : Job }).eventType ≠ SyncEventType.move := by
  exact classifier_never_emits_rename_move [c4DelEvent, c4CreEvent] c1Config 0 false
    SyncStore.empty (by intro j hj; cases hj) _ (by decide)

/-! ## C7 — content-aware upload skip -/

/-- C7: `uploadFile` (utils.ts:340-410).  With no existing file of that
name a new file is uploaded.  With an existing file whose active revision
carries a SHA-1: if it equals the locally computed SHA-1 up to case, the
upload is skipped and the existing node's uid returned; if it differs, a
new revision is uploaded.  With no remote SHA-1 (legacy file), a new
revision is uploaded. -/
theorem uploadFile_skip_on_equal_sha1 (f : RemoteFile) (l r : String)
    (loc : Option String) :
    uploadFile none loc = .uploadNewFile ∧
      (f.activeRevisionSha1 = some r → lowerStr l = lowerStr r →
        uploadFile (some f) (some l) = .skipUpload f.uid) ∧
      (f.activeRevisionSha1 = some r → lowerStr l ≠ lowerStr r →
        uploadFile (some f) (some l) = .uploadRevision f.uid) ∧
      (f.activeRevisionSha1 = none →
        uploadFile (some f) loc = .uploadRevision f.uid) := by
  refine ⟨rfl, ?_, ?_, ?_⟩
  · intro h1 h2
    simp [uploadFile, h1, h2]
  · intro h1 h2
    simp [uploadFile, h1, h2]
  · intro h1
    cases loc <;> simp [uploadFile, h1]

/-- Witness for C7: a remote revision whose SHA-1 differs only in case
from the local digest is skipped; a legacy revision without a SHA-1 gets
a new revision. -/
theorem uploadFile_skip_on_equal_sha1_witness :
    uploadFile (some ⟨"u1", some "ABCD12"⟩) (some "abcd12") = .skipUpload "u1" ∧
      uploadFile (some ⟨"u2", none⟩) (some "abcd12") = .uploadRevision "u2" := by
  exact ⟨(uploadFile_skip_on_equal_sha1 ⟨"u1", some "ABCD12"⟩ "abcd12" "ABCD12"
      (some "abcd12")).2.1 rfl (by decide),
    (uploadFile_skip_on_equal_sha1 ⟨"u2", none⟩ "abcd12" "x" (some "abcd12")).2.2.2 rfl⟩

/-! ## C9 — idempotent remote delete -/

/-- C9: `deleteNode` (delete.ts:31-113).  When any ancestor folder of the
remote path is missing, or the target itself is absent from its parent
folder, the result is success with `existed = false` and no trash or
delete call is made.  When the target exists, it is first trashed and
then permanently deleted (exactly those two remote writes, in that
order), with "already trashed" per-item errors tolerated rather than
failing the operation. -/
theorem deleteNode_idempotent_two_step (env : DriveEnv) (rp ru : String) :
    (env.rootUid = some ru →
      traverseRemotePath env ru (parsePath rp).parentParts = none →
      deleteNode env rp = ({ success := true, existed := false }, [])) ∧
      (∀ tf, env.rootUid = some ru →
        traverseRemotePath env ru (parsePath rp).parentParts = some tf →
        findNodeByName env tf (parsePath rp).name = none →
        deleteNode env rp = ({ success := true, existed := false }, [])) ∧
      (∀ tf node, env.rootUid = some ru →
        traverseRemotePath env ru (parsePath rp).parentParts = some tf →
        findNodeByName env tf (parsePath rp).name = some node →
        trashResultsTolerated env node.uid = true →
        deleteResultsOk env node.uid = true →
        deleteNode env rp =
          ({ success := true, existed := true, nodeUid := some node.uid },
            [.trashCall node.uid, .deleteCall node.uid])) := by
  refine ⟨?_, ?_, ?_⟩
  · intro hr ht
    simp only [deleteNode, hr, ht]
  · intro tf hr ht hf
    simp only [deleteNode, hr, ht, hf]
  · intro tf node hr ht hf htrash hdel
    have hdelBad : ((env.deleteResults node.uid).any fun r => r.isSome) = false := by
      rw [List.any_eq_false]
      intro x hx
      have := List.all_eq_true.1 hdel x hx
      cases x <;> simp_all
    simp only [deleteNode, hr, ht, hf]
    simp [hdelBad]
    intro x hx
    have := List.all_eq_true.1 htrash x hx
    cases x <;> simp_all

/-- Witness for C9 at the concrete drive: the existing file is trashed
then deleted with the "already trashed" response tolerated, and deleting
a path under a missing folder is a no-op success. -/
theorem deleteNode_idempotent_two_step_witness :
    deleteNode c9Env "docs/a.txt" =
        ({ success := true, existed := true, nodeUid := some "f1" },
          [.trashCall "f1", .deleteCall "f1"]) ∧
      deleteNode c9Env "nofolder/a.txt" = ({ success := true, existed := false }, []) := by
  exact ⟨(deleteNode_idempotent_two_step c9Env "docs/a.txt" "root").2.2 "d1"
      ⟨"f1", "a.txt", "file"⟩ rfl (by decide) (by decide) (by decide) (by decide),
    (deleteNode_idempotent_two_step c9Env "nofolder/a.txt" "root").1 rfl (by decide)⟩

/-! ## C10 — the scan-diff pass -/

/-- C10: `compareWithStoredChangeTokens` (watcher.ts:144-202).
(1) every scanned path absent from FileState yields `{exists:true,
new:true}`; (2) every scanned file whose current change token differs
from the stored one yields `{exists:true, new:false}`; (3) every stored
path absent from the scan yields `{exists:false}`; (4) a scanned
directory present in FileState yields nothing for its path — in
particular not when only its change token changed.  Part (4) assumes the
scan is a map (one stat per path) and that distinct paths keep distinct
watch-relative names, which holds for the `watchDir ++ "/"`-prefixed
paths the watcher produces. -/
theorem compareWithStoredChangeTokens_events (watchDir : String)
    (fs : List (String × FsStat)) (stored : List (String × String)) (now : Nat) :
    (∀ e ∈ fs, lookupKey e.1 stored = none →
      ({ name := relativeTo watchDir e.1, size := e.2.size, mtimeMs := e.2.mtimeMs,
         fileExists := true, ftype := if e.2.isDirectory then 'd' else 'f',
         isNew := true, watchRoot := watchDir, ino := e.2.ino } : FileChange) ∈
        compareWithStoredChangeTokens watchDir fs stored now) ∧
      (∀ e ∈ fs, ∀ tok, lookupKey e.1 stored = some tok →
        tok ≠ buildChangeToken e.2.mtimeMs e.2.size → e.2.isDirectory = false →
        ({ name := relativeTo watchDir e.1, size := e.2.size, mtimeMs := e.2.mtimeMs,
           fileExists := true, ftype := 'f', isNew := false, watchRoot := watchDir,
           ino := e.2.ino } : FileChange) ∈
          compareWithStoredChangeTokens watchDir fs stored now) ∧
      (∀ e ∈ stored, lookupKey e.1 fs = none →
        ({ name := relativeTo watchDir e.1, size := 0, mtimeMs := now,
           fileExists := false, ftype := 'f', isNew := false, watchRoot := watchDir,
           ino := 0 } : FileChange) ∈
          compareWithStoredChangeTokens watchDir fs stored now) ∧
      (∀ p st tok, lookupKey p fs = some st → st.isDirectory = true →
        lookupKey p stored = some tok →
        (∀ e ∈ fs, e.1 = p → e.2 = st) →
        (∀ e ∈ fs, e.1 ≠ p → relativeTo watchDir e.1 ≠ relativeTo watchDir p) →
        (∀ e ∈ stored, e.1 ≠ p → relativeTo watchDir e.1 ≠ relativeTo watchDir p) →
        ∀ c ∈ compareWithStoredChangeTokens watchDir fs stored now,
          c.name ≠ relativeTo watchDir p) := by
  refine ⟨?_, ?_, ?_, ?_⟩
  · intro e he hnone
    unfold compareWithStoredChangeTokens
    refine List.mem_append_left _ (List.mem_filterMap.2 ⟨e, he, ?_⟩)
    simp [hnone]
  · intro e he tok htok hne hdir
    unfold compareWithStoredChangeTokens
    refine List.mem_append_left _ (List.mem_filterMap.2 ⟨e, he, ?_⟩)
    simp [htok, hne, hdir]
  · intro e he hnone
    unfold compareWithStoredChangeTokens
    refine List.mem_append_right _ (List.mem_filterMap.2 ⟨e, he, ?_⟩)
    simp [hnone]
  · intro p st tok hfs hdir hstored hsame hinjFs hinjStored c hc
    unfold compareWithStoredChangeTokens at hc
    rcases List.mem_append.1 hc with hc | hc
    · obtain ⟨e, he, hfe⟩ := List.mem_filterMap.1 hc
      by_cases hep : e.1 = p
      · have hst : e.2 = st := hsame e he hep
        have hl : lookupKey e.1 stored = some tok := by rw [hep]; exact hstored
        have hd : e.2.isDirectory = true := by rw [hst]; exact hdir
        simp [hl, hd] at hfe
      · rcases hl : lookupKey e.1 stored with _ | tok'
        · simp only [hl] at hfe
          have : c.name = relativeTo watchDir e.1 := by
            cases hfe; rfl
          rw [this]
          exact hinjFs e he hep
        · simp only [hl] at hfe
          split at hfe
          · have : c.name = relativeTo watchDir e.1 := by
              cases hfe; rfl
            rw [this]
            exact hinjFs e he hep
          · cases hfe
    · obtain ⟨e, he, hfe⟩ := List.mem_filterMap.1 hc
      by_cases hep : e.1 = p
      · have : lookupKey e.1 fs = some st := by rw [hep]; exact hfs
        simp [this] at hfe
      · split at hfe
        · have : c.name = relativeTo watchDir e.1 := by
            cases hfe; rfl
          rw [this]
          exact hinjStored e he hep
        · cases hfe

/-- Witness for C10 at the concrete scan: the new file, the modified
file and the vanished path are each emitted, and no event is emitted for
the directory `d` whose token merely changed. -/
theorem compareWithStoredChangeTokens_events_witness :
    ({ name := "new.txt", size := 3, mtimeMs := 5, fileExists := true, ftype := 'f',
       isNew := true, watchRoot := "/w", ino := 1 } : FileChange) ∈
        compareWithStoredChangeTokens "/w" c10Fs c10Stored 100 ∧
      ({ name := "f.txt", size := 4, mtimeMs := 6, fileExists := true, ftype := 'f',
         isNew := false, watchRoot := "/w", ino := 2 } : FileChange) ∈
        compareWithStoredChangeTokens "/w" c10Fs c10Stored 100 ∧
      ({ name := "gone.txt", size := 0, mtimeMs := 100, fileExists := false,
         ftype := 'f', isNew := false, watchRoot := "/w", ino := 0 } : FileChange) ∈
        compareWithStoredChangeTokens "/w" c10Fs c10Stored 100 ∧
      ({ name := "new.txt", size := 3, mtimeMs := 5, fileExists := true, ftype := 'f',
         isNew := true, watchRoot := "/w", ino := 1 } : FileChange).name ≠
        relativeTo "/w" "/w/d" := by
  refine ⟨?_, ?_, ?_, ?_⟩
  · exact (compareWithStoredChangeTokens_events "/w" c10Fs c10Stored 100).1
      ("/w/new.txt", ⟨3, 5, false, 1⟩) (by decide) (by decide)
  · exact (compareWithStoredChangeTokens_events "/w" c10Fs c10Stored 100).2.1
      ("/w/f.txt", ⟨4, 6, false, 2⟩) (by decide) "1:1" (by decide) (by decide) (by decide)
  · exact (compareWithStoredChangeTokens_events "/w" c10Fs c10Stored 100).2.2.1
      ("/w/gone.txt", "1:1") (by decide) (by decide)
  · exact (compareWithStoredChangeTokens_events "/w" c10Fs c10Stored 100).2.2.2
      "/w/d" ⟨0, 99, true, 3⟩ "2:0" (by decide) (by decide) (by decide) (by decide)
      (by decide) (by decide)
      { name := "new.txt", size := 3, mtimeMs := 5, fileExists := true, ftype := 'f',
        isNew := true, watchRoot := "/w", ino := 1 }
      (by decide)

/-! ## C8 — dry-run and remote deletes -/

/-- C8 evaluated at the failing input.  The state-store writers
(`setNodeMapping`, `deleteNodeMapping`, `setFileHash`) are no-ops under
`dryRun = true`, and `createNode` short-circuits to its dummy result with
no remote write — but `deleteNode` (delete.ts:31-113) accepts no dry-run
parameter at all, even though its caller `processJob` passes one
(processor.ts:118, `deleteNode(client, remotePath, dryRun)`), so a DELETE
job processed in dry-run mode still issues the trash and permanent-delete
network writes. -/
theorem dryRun_delete_still_writes_network :
    setNodeMapping "/r/a.txt" "u" "pu" false true c5Store = c5Store ∧
      deleteNodeMapping "/r/a.txt" true c5Store = c5Store ∧
      setFileHash "/r/a.txt" "h9" true c5Store = c5Store ∧
      createNode true ({ success := true, nodeUid := some "live" },
          [.uploadCall "live"]) =
        ({ success := true, nodeUid := some "dry-run-node-uid",
           parentNodeUid := some "dry-run-parent-uid", isDirectory := false }, []) ∧
      (deleteNode c8Env "docs/a.txt").2 = [.trashCall "f1", .deleteCall "f1"] := by
  decide

/-! ## C2 — uniqueness of live job rows -/

/-- Entrywise updates that can only turn a Boolean row predicate off
never increase the filtered length. -/
theorem length_filter_map_le (p : Job → Bool) (f : Job → Job)
    (h : ∀ j, p (f j) = true → p j = true) :
    ∀ l : List Job, ((l.map f).filter p).length ≤ (l.filter p).length := by
  intro l
  induction l with
  | nil => simp
  | cons j t ih =>
    simp only [List.map_cons, List.filter_cons]
    by_cases hj : p (f j) = true
    · rw [if_pos hj, if_pos (h j hj)]
      simpa using ih
    · rw [if_neg hj]
      by_cases hpj : p j = true
      · rw [if_pos hpj]
        exact ih.trans (by simp)
      · rw [if_neg hpj]
        exact ih

/-- Coalescing merges into an existing non-SYNCED row and therefore
leaves every path's non-SYNCED row count unchanged. -/
theorem coalesceInto_filter_length (req : NewJobRequest) (now : Nat) (p : String) :
    ∀ l : List Job,
      ((coalesceInto req now l).filter (coalesceTarget p)).length =
        (l.filter (coalesceTarget p)).length := by
  intro l
  induction l with
  | nil => rfl
  | cons j t ih =>
    unfold coalesceInto
    by_cases hj : coalesceTarget req.localPath j = true
    · rw [if_pos hj]
      have hns : j.state ≠ .synced := by
        simp only [coalesceTarget, decide_eq_true_eq] at hj
        exact hj.2
      have hmerge : coalesceTarget p (mergeJob j req now) = coalesceTarget p j := by
        simp [coalesceTarget, mergeJob, hns]
      simp only [List.filter_cons, hmerge]
      split <;> simp
    · rw [if_neg hj]
      simp only [List.filter_cons]
      by_cases hpj : coalesceTarget p j = true
      · rw [if_pos hpj, if_pos hpj]
        simp [ih]
      · rw [if_neg hpj, if_neg hpj]
        exact ih

/-- Claiming the next ready job (PENDING→PROCESSING) leaves every path's
non-SYNCED row count unchanged. -/
theorem claimNextJob_filter_length (now : Nat) (p : String) :
    ∀ l : List Job,
      ((claimNextJob now l).filter (coalesceTarget p)).length =
        (l.filter (coalesceTarget p)).length := by
  intro l
  induction l with
  | nil => rfl
  | cons j t ih =>
    unfold claimNextJob
    split
    · next hcond =>
      have hhead : coalesceTarget p { j with state := .processing } = coalesceTarget p j := by
        simp [coalesceTarget, hcond.1]
      simp only [List.filter_cons, hhead]
      split <;> simp
    · simp only [List.filter_cons]
      by_cases hpj : coalesceTarget p j = true
      · rw [if_pos hpj, if_pos hpj]
        simp [ih]
      · rw [if_neg hpj, if_neg hpj]
        exact ih

/-- Two stores with the same job table have the same counts. -/
theorem nonSyncedCount_eq_of_jobs_eq {s₁ s₂ : SyncStore} (h : s₁.jobs = s₂.jobs)
    (p : String) : nonSyncedCount s₁ p = nonSyncedCount s₂ p := by
  unfold nonSyncedCount
  rw [h]

/-- Enqueuing preserves "at most one non-SYNCED row per path": it merges
into the existing non-SYNCED row when one exists and inserts only when
none does. -/
theorem enqueueJob_nonSyncedCount_le (req : NewJobRequest) (now : Nat) (d : Bool)
    (s : SyncStore) (p : String) (h : nonSyncedCount s p ≤ 1) :
    nonSyncedCount (enqueueJob req now d s) p ≤ 1 := by
  unfold enqueueJob
  split
  · exact h
  · split
    · unfold nonSyncedCount at *
      simpa [coalesceInto_filter_length] using h
    · next hany =>
      have hfalse : s.jobs.any (coalesceTarget req.localPath) = false := by
        simpa using hany
      unfold nonSyncedCount at *
      simp only [List.filter_append, List.length_append]
      by_cases hp : req.localPath = p
      · have h0 : s.jobs.filter (coalesceTarget p) = [] := by
          rw [List.filter_eq_nil_iff]
          intro x hx
          have := List.any_eq_false.1 hfalse x hx
          rwa [hp] at this
        rw [h0]
        simp [coalesceTarget, hp]
      · have h1 : coalesceTarget p
            ({ id := s.nextJobId, eventType := req.eventType,
               localPath := req.localPath, remotePath := req.remotePath,
               oldLocalPath := req.oldLocalPath, oldRemotePath := req.oldRemotePath,
               contentHash := req.contentHash, state := .pending, nRetries := 0,
               retryAt := now } : Job) = false := by
          simp [coalesceTarget, hp]
        simpa [List.filter_cons, h1] using h

/-- `markJobSynced` only turns rows SYNCED, never increasing any count. -/
theorem markJobSynced_nonSyncedCount_le (id : Nat) (d : Bool) (s : SyncStore)
    (p : String) (h : nonSyncedCount s p ≤ 1) :
    nonSyncedCount (markJobSynced id d s) p ≤ 1 := by
  unfold markJobSynced
  split
  · exact h
  · unfold nonSyncedCount at *
    refine le_trans (length_filter_map_le _ _ ?_ s.jobs) h
    intro j hj
    by_cases hc : j.id = id ∧ j.state = .processing
    · rw [if_pos hc] at hj
      simp [coalesceTarget] at hj
    · rwa [if_neg hc] at hj

/-- `markJobBlocked` transitions PROCESSING→BLOCKED, both non-SYNCED. -/
theorem markJobBlocked_nonSyncedCount_le (id : Nat) (err : String) (d : Bool)
    (s : SyncStore) (p : String) (h : nonSyncedCount s p ≤ 1) :
    nonSyncedCount (markJobBlocked id err d s) p ≤ 1 := by
  unfold markJobBlocked
  split
  · exact h
  · unfold nonSyncedCount at *
    refine le_trans (length_filter_map_le _ _ ?_ s.jobs) h
    intro j hj
    by_cases hc : j.id = id ∧ j.state = .processing
    · rw [if_pos hc] at hj
      simp only [coalesceTarget, decide_eq_true_eq] at hj ⊢
      exact ⟨hj.1, by rw [hc.2]; simp⟩
    · rwa [if_neg hc] at hj

/-- `setJobError` does not change paths or states. -/
theorem setJobError_nonSyncedCount_le (id : Nat) (err : String) (d : Bool)
    (s : SyncStore) (p : String) (h : nonSyncedCount s p ≤ 1) :
    nonSyncedCount (setJobError id err d s) p ≤ 1 := by
  unfold setJobError
  split
  · exact h
  · unfold nonSyncedCount at *
    refine le_trans (length_filter_map_le _ _ ?_ s.jobs) h
    intro j hj
    by_cases hc : j.id = id
    · rw [if_pos hc] at hj
      simp only [coalesceTarget, decide_eq_true_eq] at hj ⊢
      exact hj
    · rwa [if_neg hc] at hj

/-- `scheduleRetry` transitions PROCESSING→PENDING, both non-SYNCED. -/
theorem scheduleRetry_nonSyncedCount_le (id delay now : Nat) (d : Bool)
    (s : SyncStore) (p : String) (h : nonSyncedCount s p ≤ 1) :
    nonSyncedCount (scheduleRetry id delay now d s) p ≤ 1 := by
  unfold scheduleRetry
  split
  · exact h
  · unfold nonSyncedCount at *
    refine le_trans (length_filter_map_le _ _ ?_ s.jobs) h
    intro j hj
    by_cases hc : j.id = id ∧ j.state = .processing
    · rw [if_pos hc] at hj
      simp only [coalesceTarget, decide_eq_true_eq] at hj ⊢
      exact ⟨hj.1, by rw [hc.2]; simp⟩
    · rwa [if_neg hc] at hj

/-- Startup recovery transitions PROCESSING→PENDING, both non-SYNCED. -/
theorem startupRecovery_nonSyncedCount_le (now : Nat) (s : SyncStore) (p : String)
    (h : nonSyncedCount s p ≤ 1) : nonSyncedCount (startupRecovery now s) p ≤ 1 := by
  unfold startupRecovery
  unfold nonSyncedCount at *
  refine le_trans (length_filter_map_le _ _ ?_ s.jobs) h
  intro j hj
  by_cases hc : j.state = .processing
  · rw [if_pos hc] at hj
    simp only [coalesceTarget, decide_eq_true_eq] at hj ⊢
    exact ⟨hj.1, by rw [hc]; simp⟩
  · rwa [if_neg hc] at hj

/-- Section 3's invariant, proved over every reachable store: at most one
non-SYNCED `sync_jobs` row per `localPath`. -/
theorem reachable_nonSyncedCount_le_one {s : SyncStore} (hs : Reachable s) :
    ∀ p, nonSyncedCount s p ≤ 1 := by
  induction hs with
  | empty =>
    intro p
    simp [nonSyncedCount, SyncStore.empty]
  | enqueue req now d _ ih =>
    intro p
    exact enqueueJob_nonSyncedCount_le req now d _ p (ih p)
  | claim now _ ih =>
    intro p
    unfold nonSyncedCount at *
    simpa [claimNextJob_filter_length] using ih p
  | markSynced id d _ ih =>
    intro p
    exact markJobSynced_nonSyncedCount_le id d _ p (ih p)
  | markBlocked id err d _ ih =>
    intro p
    exact markJobBlocked_nonSyncedCount_le id err d _ p (ih p)
  | setError id err d _ ih =>
    intro p
    exact setJobError_nonSyncedCount_le id err d _ p (ih p)
  | retry id delay now d _ ih =>
    intro p
    exact scheduleRetry_nonSyncedCount_le id delay now d _ p (ih p)
  | recover now _ ih =>
    intro p
    exact startupRecovery_nonSyncedCount_le now _ p (ih p)
  | deleteTx id localPath d _ ih =>
    intro p
    unfold processJobDeleteTx
    refine markJobSynced_nonSyncedCount_le id d _ p ?_
    rw [nonSyncedCount_eq_of_jobs_eq (deleteNodeMapping_jobs localPath d _) p]
    exact ih p
  | createUpdateTx job nodeUid parentNodeUid isDirectory d _ ih =>
    intro p
    unfold processJobCreateUpdateTx
    refine markJobSynced_nonSyncedCount_le job.id d _ p ?_
    cases hch : job.contentHash with
    | none =>
      simp only [hch]
      rw [nonSyncedCount_eq_of_jobs_eq
        (setNodeMapping_jobs job.localPath nodeUid parentNodeUid isDirectory d _) p]
      exact ih p
    | some hcv =>
      simp only [hch]
      rw [nonSyncedCount_eq_of_jobs_eq (setFileHash_jobs job.localPath hcv d _) p,
        nonSyncedCount_eq_of_jobs_eq
          (setNodeMapping_jobs job.localPath nodeUid parentNodeUid isDirectory d _) p]
      exact ih p
  | renameTx id oldLocalPath localPath d _ ih =>
    intro p
    unfold processJobRenameTx
    refine markJobSynced_nonSyncedCount_le id d _ p ?_
    rw [nonSyncedCount_eq_of_jobs_eq (updateStoredHashPath_jobs oldLocalPath localPath d _) p,
      nonSyncedCount_eq_of_jobs_eq (updateNodeMappingPath_jobs oldLocalPath localPath none d _) p]
    exact ih p
  | moveTx id oldLocalPath localPath newParentNodeUid d _ ih =>
    intro p
    unfold processJobMoveTx
    refine markJobSynced_nonSyncedCount_le id d _ p ?_
    rw [nonSyncedCount_eq_of_jobs_eq (updateStoredHashPath_jobs oldLocalPath localPath d _) p,
      nonSyncedCount_eq_of_jobs_eq
        (updateNodeMappingPath_jobs oldLocalPath localPath (some newParentNodeUid) d _) p]
    exact ih p
  | convertTx job now d _ ih =>
    intro p
    unfold processJobConvertTx
    exact enqueueJob_nonSyncedCount_le _ now d _ p (ih p)

/-- Live rows (PENDING/PROCESSING) are in particular non-SYNCED rows. -/
theorem liveJobCount_le_nonSyncedCount (s : SyncStore) (p : String) :
    liveJobCount s p ≤ nonSyncedCount s p := by
  unfold liveJobCount nonSyncedCount
  refine List.Sublist.length_le (List.monotone_filter_right _ ?_)
  intro j hj
  simp only [liveJob, coalesceTarget, decide_eq_true_eq] at hj ⊢
  rcases hj.2 with h2 | h2 <;> exact ⟨hj.1, by rw [h2]; simp⟩

/-- C2: in every reachable state of the job store, at most one
`sync_jobs` row per `localPath` is PENDING or PROCESSING.  The
DELETE_AND_CREATE conversion after repeated REUPLOAD_NEEDED failures is
the `Reachable.convertTx` step: its `enqueueJob` call coalesces into the
existing non-SYNCED row for the path, so it does not leave two live rows
for the same `localPath`. -/
theorem syncJobs_at_most_one_live_row {s : SyncStore} (hs : Reachable s) (p : String) :
    liveJobCount s p ≤ 1 :=
  le_trans (liveJobCount_le_nonSyncedCount s p) (reachable_nonSyncedCount_le_one hs p)

/-- Witness for C2: after enqueuing, claiming and converting the job to
DELETE_AND_CREATE, the path has exactly one live row — the conversion
coalesced rather than inserting a second. -/
theorem syncJobs_at_most_one_live_row_witness :
    liveJobCount c2S3 "/home/u/docs/a.txt" = 1 ∧
      liveJobCount c2S3 "/home/u/docs/a.txt" ≤ 1 := by
  refine ⟨by decide, ?_⟩
  exact syncJobs_at_most_one_live_row
    (Reachable.convertTx c2Job 50 false
      (Reachable.claim 0 (Reachable.enqueue c2Req 0 false Reachable.empty)))
    "/home/u/docs/a.txt"

end ProtonDriveSync
